import Mathlib

/-!
Verification of the projection engine of cashflow_streamlit.py.

The engine (source lines 78-168) is embedded shallowly: numeric values are
rationals, the sidebar inputs become an immutable record of settings, the
two selectboxes become two-value enumerations, and the per-year loop body
becomes an explicit state-transition function on the mutable simulation
state (cash, inv_balances).
-/

namespace Cashflow

/-- Compounding frequency selectbox: "annual" or "monthly" (source line 17). -/
inductive Compounding
  | annual
  | monthly
deriving DecidableEq

/-- Contribution-timing selectbox: "start_of_year" or "end_of_year" (source line 76). -/
inductive Rebalancing
  | start_of_year
  | end_of_year
deriving DecidableEq

/-- One investment slot as assembled at source lines 63-70 (the display-only
name field is omitted; it has no effect on the computation). -/
structure InvSlot where
  principal : ℚ
  annual_contrib : ℚ
  ret : ℚ
  tax : ℚ
  reinvest : Bool
deriving DecidableEq

/-- All sidebar inputs consumed by the projection engine (source lines 14-76).
years is an integer so that out-of-domain horizons can be discussed. -/
structure Settings where
  years : ℤ
  start_year : ℤ
  p1_salary : ℚ
  p1_growth : ℚ
  p1_other : ℚ
  p2_salary : ℚ
  p2_growth : ℚ
  p2_other : ℚ
  monthly_expenses : ℚ
  annual_irregular : ℚ
  expense_growth : ℚ
  salary_tax_rate : ℚ
  other_income_tax_rate : ℚ
  start_savings : ℚ
  compounding : Compounding
  rebalancing : Rebalancing
  inv_slots : List InvSlot
deriving DecidableEq

/-- One emitted row of the results table (source lines 155-168). -/
structure YearRow where
  year : ℤ
  gross_income : ℚ
  salary_tax : ℚ
  other_income_tax : ℚ
  investment_gain_before_tax : ℚ
  investment_tax_paid : ℚ
  total_taxes : ℚ
  total_expenses : ℚ
  net_savings : ℚ
  cash : ℚ
  investment_value : ℚ
  net_worth : ℚ
deriving DecidableEq

/-- The mutable simulation state owned by the engine (source lines 92-93). -/
structure SimState where
  cash : ℚ
  inv_balances : List ℚ
deriving DecidableEq

/-- apply_return (source lines 80-84). -/
def apply_return (balance rate : ℚ) (freq : Compounding) : ℚ :=
  match freq with
  | .monthly => balance * ((1 + rate / 12) ^ 12 - 1)
  | .annual => balance * rate

/-- Initialization (source lines 92-93): balances from principals, cash from
start_savings. -/
def initState (cfg : Settings) : SimState :=
  { cash := cfg.start_savings
    inv_balances := cfg.inv_slots.map (fun s => s.principal) }

/-- total_contrib (source line 111), including the vacuous (1+0)^yi factor. -/
def total_contrib (slots : List InvSlot) (yi : ℕ) : ℚ :=
  (slots.map (fun s => s.annual_contrib * (1 + 0) ^ yi)).sum

/-- Adding the per-slot contribution to the matching balance
(source lines 116-117 and 140-141). -/
def addContribs (slots : List InvSlot) (bals : List ℚ) : List ℚ :=
  List.zipWith (fun b s => b + s.annual_contrib) bals slots

/-- The returns-and-taxes loop (source lines 120-136) over slot/balance pairs.
Returns (new balances, total swept to cash, gain accumulator, tax accumulator);
the sweep to cash is accumulated as a sum, which in exact arithmetic agrees
with the in-place updates of the source. -/
def returnsPass (freq : Compounding) : List (InvSlot × ℚ) → List ℚ × ℚ × ℚ × ℚ
  | [] => ([], 0, 0, 0)
  | (s, bal) :: rest =>
    let gain := apply_return bal s.ret freq
    let tax := gain * s.tax
    let acc := returnsPass freq rest
    if s.reinvest then
      ((bal + (gain - tax)) :: acc.1, acc.2.1, gain + acc.2.2.1, tax + acc.2.2.2)
    else
      (bal :: acc.1, (gain - tax) + acc.2.1, gain + acc.2.2.1, tax + acc.2.2.2)

/-- One iteration of the per-year loop (source lines 95-168), as a function
from the year index and incoming state to the outgoing state and emitted row. -/
def yearStep (cfg : Settings) (yi : ℕ) (st : SimState) : SimState × YearRow :=
  let p1f : ℚ := (1 + cfg.p1_growth) ^ yi
  let p2f : ℚ := (1 + cfg.p2_growth) ^ yi
  let p1_inc := cfg.p1_salary * p1f + cfg.p1_other * p1f
  let p2_inc := cfg.p2_salary * p2f + cfg.p2_other * p2f
  let gross_income := p1_inc + p2_inc
  let salary_tax :=
    (cfg.p1_salary * p1f) * cfg.salary_tax_rate + (cfg.p2_salary * p2f) * cfg.salary_tax_rate
  let other_income := cfg.p1_other * p1f + cfg.p2_other * p2f
  let other_income_tax := other_income * cfg.other_income_tax_rate
  let monthly := cfg.monthly_expenses * (1 + cfg.expense_growth) ^ yi
  let annual := cfg.annual_irregular * (1 + cfg.expense_growth) ^ yi
  let total_expenses := monthly * 12 + annual
  let tc := total_contrib cfg.inv_slots yi
  let cash0 :=
    match cfg.rebalancing with
    | .start_of_year => st.cash - tc
    | .end_of_year => st.cash
  let bals0 :=
    match cfg.rebalancing with
    | .start_of_year => addContribs cfg.inv_slots st.inv_balances
    | .end_of_year => st.inv_balances
  let acc := returnsPass cfg.compounding (cfg.inv_slots.zip bals0)
  let bals1 := acc.1
  let sweep := acc.2.1
  let gainSum := acc.2.2.1
  let taxSum := acc.2.2.2
  let cash1 := cash0 + sweep
  let cash2 :=
    match cfg.rebalancing with
    | .start_of_year => cash1
    | .end_of_year => cash1 - tc
  let bals2 :=
    match cfg.rebalancing with
    | .start_of_year => bals1
    | .end_of_year => addContribs cfg.inv_slots bals1
  let taxes := salary_tax + other_income_tax + taxSum
  let net_savings := gross_income - taxes - total_expenses
  let cash3 := cash2 + net_savings
  let total_investment_value := bals2.sum
  ({ cash := cash3, inv_balances := bals2 },
   { year := cfg.start_year + yi
     gross_income := gross_income
     salary_tax := salary_tax
     other_income_tax := other_income_tax
     investment_gain_before_tax := gainSum
     investment_tax_paid := taxSum
     total_taxes := taxes
     total_expenses := total_expenses
     net_savings := net_savings
     cash := cash3
     investment_value := total_investment_value
     net_worth := cash3 + total_investment_value })

/-- The state part of one loop iteration. -/
def stepState (cfg : Settings) (yi : ℕ) (st : SimState) : SimState :=
  (yearStep cfg yi st).1

/-- Number of loop iterations: years_list = range(start_year, start_year+years)
(source line 88) has max(years, 0) elements. -/
def numYears (cfg : Settings) : ℕ :=
  cfg.years.toNat

/-- Simulation state after n completed iterations of the loop. -/
def stateAfter (cfg : Settings) : ℕ → SimState
  | 0 => initState cfg
  | n + 1 => stepState cfg n (stateAfter cfg n)

/-- The row emitted for year index n: the loop body applied to the state the
first n iterations produced. -/
def rowAt (cfg : Settings) (n : ℕ) : YearRow :=
  (yearStep cfg n (stateAfter cfg n)).2

/-- The full emitted sequence of rows (source: the rows list after the loop). -/
def run (cfg : Settings) : List YearRow :=
  (List.range (numYears cfg)).map (rowAt cfg)

/-- The final simulation state (cash, inv_balances) left after the loop. -/
def finalState (cfg : Settings) : SimState :=
  stateAfter cfg (numYears cfg)

/-- An all-zero one-year configuration with no investment slots, used as a
concrete instance in several witnesses. -/
def cfgZero : Settings :=
  { years := 1, start_year := 2025
    p1_salary := 0, p1_growth := 0, p1_other := 0
    p2_salary := 0, p2_growth := 0, p2_other := 0
    monthly_expenses := 0, annual_irregular := 0, expense_growth := 0
    salary_tax_rate := 0, other_income_tax_rate := 0
    start_savings := 0
    compounding := Compounding.annual
    rebalancing := Rebalancing.start_of_year
    inv_slots := [] }

/-- A zero-horizon configuration, used for the horizon edge case. -/
def cfgHorizonZero : Settings :=
  { cfgZero with years := 0 }

/-- The end-to-end scenario of the spec with reinvestReturns = false: one
slot with principal 1000, no contribution, a ten percent return, no tax on
returns; every other input zero. -/
def cfgC8 : Settings :=
  { cfgZero with
    inv_slots :=
      [{ principal := 1000, annual_contrib := 0, ret := 1/10, tax := 0, reinvest := false }] }

/-- The multiplier that apply_return puts on the balance: the rate itself
for annual compounding, the effective annual rate for monthly compounding. -/
def rateFactor (freq : Compounding) (rate : ℚ) : ℚ :=
  match freq with
  | .monthly => (1 + rate / 12) ^ 12 - 1
  | .annual => rate

/-- Single-slot configuration refuting the timing claim: non-zero (negative)
return rate, non-zero contribution, reinvested returns. -/
def slotC2x : InvSlot :=
  { principal := 1000, annual_contrib := 100, ret := -1/2, tax := 0, reinvest := true }

/-- The settings around slotC2x (timing is overridden per run). -/
def cfgC2x : Settings :=
  { cfgZero with inv_slots := [slotC2x] }

/-- Single-slot configuration with a positive return rate for the amended
timing claim. -/
def slotC2w : InvSlot :=
  { principal := 1000, annual_contrib := 100, ret := 1/10, tax := 0, reinvest := true }

/-- The settings around slotC2w (timing is overridden per run). -/
def cfgC2w : Settings :=
  { cfgZero with inv_slots := [slotC2w] }

/-- Two-year configuration with positive salary growth but zero salaries,
refuting strict growth of gross income. -/
def cfgC6x : Settings :=
  { cfgZero with years := 2, p1_growth := 1/20, p2_growth := 1/20 }

/-- Two-year configuration with a positive first salary, for the amended
monotonicity claim. -/
def cfgC6w : Settings :=
  { cfgZero with years := 2, p1_salary := 100, p1_growth := 1/10, p2_growth := 1/10 }

/-- Two-year monthly, end-of-year configuration with a single zero-rate,
zero-contribution slot of principal 500, used as the C7 witness. -/
def cfgC7w : Settings :=
  { cfgZero with
    years := 2
    compounding := Compounding.monthly
    rebalancing := Rebalancing.end_of_year
    inv_slots :=
      [{ principal := 500, annual_contrib := 0, ret := 0, tax := 1/5, reinvest := true }] }

/-- One-year configuration with zero incomes and expenses but a non-zero
contribution into a reinvesting slot, refuting the claimed cash equation. -/
def cfgC9x : Settings :=
  { cfgZero with
    inv_slots :=
      [{ principal := 1000, annual_contrib := 100, ret := 0, tax := 0, reinvest := true }] }

/-- One-year configuration with zero incomes, expenses and contributions and
one reinvesting slot with a ten percent return taxed at one fifth, used as
the C9 witness. -/
def cfgC9w : Settings :=
  { cfgZero with
    inv_slots :=
      [{ principal := 1000, annual_contrib := 0, ret := 1/10, tax := 1/5, reinvest := true }] }

/-- Two-year configuration with one zero-contribution slot paying its gain
out to cash, used as the C10 witness (timing is overridden per run). -/
def cfgC10w : Settings :=
  { cfgZero with
    years := 2
    inv_slots :=
      [{ principal := 1000, annual_contrib := 0, ret := 1/10, tax := 1/10, reinvest := false }] }

/- ================= Helper lemmas ================= -/

/-- apply_return is the balance times the compounding-dependent factor. -/
theorem apply_return_eq_mul (b r : ℚ) (f : Compounding) :
    apply_return b r f = b * rateFactor f r := by
  cases f <;> rfl

/-- For a positive nominal rate both compounding factors are positive. -/
theorem rateFactor_pos (f : Compounding) {r : ℚ} (hr : 0 < r) :
    0 < rateFactor f r := by
  cases f with
  | annual => exact hr
  | monthly =>
    have h1 : (1 : ℚ) < 1 + r / 12 := by linarith
    have h2 : (1 : ℚ) ^ 12 < (1 + r / 12) ^ 12 :=
      pow_lt_pow_left₀ h1 zero_le_one (by norm_num)
    simp only [one_pow] at h2
    simp only [rateFactor]
    linarith

/-- The emitted row at index n records net worth as cash plus the sum of the
balances it also records as the investment value. -/
theorem rowAt_net_worth (cfg : Settings) (n : ℕ) :
    (rowAt cfg n).net_worth = (rowAt cfg n).cash + (rowAt cfg n).investment_value := rfl

/-- The investment value of the emitted row at index n is the sum of the
account balances of the state left after iteration n. -/
theorem rowAt_investment_value (cfg : Settings) (n : ℕ) :
    (rowAt cfg n).investment_value = ((stateAfter cfg (n + 1)).inv_balances).sum := rfl

/-- The total-taxes field of every emitted row is assembled from the three
tax fields of the same row. -/
theorem rowAt_total_taxes (cfg : Settings) (n : ℕ) :
    (rowAt cfg n).total_taxes =
      (rowAt cfg n).salary_tax + (rowAt cfg n).other_income_tax +
        (rowAt cfg n).investment_tax_paid := rfl

/-- The gross-income field of the emitted row at index n, in closed form;
it depends only on the settings and the year index, not on the state. -/
theorem rowAt_gross_income (cfg : Settings) (n : ℕ) :
    (rowAt cfg n).gross_income =
      (cfg.p1_salary * (1 + cfg.p1_growth) ^ n + cfg.p1_other * (1 + cfg.p1_growth) ^ n) +
      (cfg.p2_salary * (1 + cfg.p2_growth) ^ n + cfg.p2_other * (1 + cfg.p2_growth) ^ n) := rfl

/-- A zero rate produces a zero gain under either compounding mode. -/
theorem apply_return_zero (b : ℚ) (f : Compounding) : apply_return b 0 f = 0 := by
  cases f <;> simp [apply_return]

/-- The returns loop never changes the number of balances. -/
theorem returnsPass_length (freq : Compounding) (l : List (InvSlot × ℚ)) :
    (returnsPass freq l).1.length = l.length := by
  induction l with
  | nil => simp [returnsPass]
  | cons p tl ih =>
    obtain ⟨s, b⟩ := p
    cases hrv : s.reinvest <;> simp [returnsPass, hrv, ih]

/-- When every slot in the pair list has a zero return rate, the returns
loop leaves every balance unchanged. -/
theorem returnsPass_balances_of_zero_ret (freq : Compounding) (l : List (InvSlot × ℚ))
    (h : ∀ p ∈ l, p.1.ret = 0) :
    (returnsPass freq l).1 = l.map Prod.snd := by
  induction l with
  | nil => simp [returnsPass]
  | cons p tl ih =>
    obtain ⟨s, b⟩ := p
    have hs : s.ret = 0 := h (s, b) (List.mem_cons_self _ _)
    have ih2 := ih fun q hq => h q (List.mem_cons_of_mem _ hq)
    cases hrv : s.reinvest <;>
      simp [returnsPass, hrv, hs, apply_return_zero, ih2]

/-- When every slot in the pair list reinvests, the returns loop sweeps
nothing to cash. -/
theorem returnsPass_sweep_of_reinvest (freq : Compounding) (l : List (InvSlot × ℚ))
    (h : ∀ p ∈ l, p.1.reinvest = true) :
    (returnsPass freq l).2.1 = 0 := by
  induction l with
  | nil => simp [returnsPass]
  | cons p tl ih =>
    obtain ⟨s, b⟩ := p
    have hs : s.reinvest = true := h (s, b) (List.mem_cons_self _ _)
    have ih2 := ih fun q hq => h q (List.mem_cons_of_mem _ hq)
    simp [returnsPass, hs, ih2]

/-- When every slot contributes zero, adding contributions is the identity
on a balance list of matching length. -/
theorem addContribs_of_zero_contrib (slots : List InvSlot) (bals : List ℚ)
    (h : ∀ s ∈ slots, s.annual_contrib = 0) (hlen : bals.length = slots.length) :
    addContribs slots bals = bals := by
  induction bals generalizing slots with
  | nil => simp [addContribs]
  | cons b tb ih =>
    cases slots with
    | nil => simp at hlen
    | cons s ts =>
      have hs : s.annual_contrib = 0 := h s (List.mem_cons_self _ _)
      have ih2 := ih ts (fun q hq => h q (List.mem_cons_of_mem _ hq))
        (by simpa using hlen)
      simp [addContribs, hs] at ih2 ⊢
      exact ih2

/-- When every slot contributes zero, the total contribution is zero. -/
theorem total_contrib_of_zero_contrib (slots : List InvSlot) (yi : ℕ)
    (h : ∀ s ∈ slots, s.annual_contrib = 0) :
    total_contrib slots yi = 0 := by
  refine List.sum_eq_zero ?_
  intro x hx
  rcases List.mem_map.mp hx with ⟨s, hsmem, rfl⟩
  simp [h s hsmem]

/-- One loop iteration leaves the balances untouched when every slot has a
zero return rate and a zero contribution. -/
theorem stepState_balances_of_zero (cfg : Settings) (yi : ℕ) (st : SimState)
    (h : ∀ s ∈ cfg.inv_slots, s.ret = 0 ∧ s.annual_contrib = 0)
    (hlen : st.inv_balances.length = cfg.inv_slots.length) :
    (stepState cfg yi st).inv_balances = st.inv_balances := by
  have hc : ∀ s ∈ cfg.inv_slots, s.annual_contrib = 0 := fun s hs => (h s hs).2
  have hz : ∀ bals : List ℚ, bals.length = cfg.inv_slots.length →
      (returnsPass cfg.compounding (cfg.inv_slots.zip bals)).1 = bals := by
    intro bals hb
    rw [returnsPass_balances_of_zero_ret _ _
      (fun p hp => (h p.1 (List.of_mem_zip hp).1).1)]
    exact List.map_snd_zip _ _ hb.le
  cases hreb : cfg.rebalancing <;>
    simp only [stepState, yearStep, hreb]
  · rw [addContribs_of_zero_contrib _ _ hc hlen, hz _ hlen]
  · rw [hz _ hlen, addContribs_of_zero_contrib _ _ hc hlen]

/-- One loop iteration always leaves one balance per configured slot. -/
theorem stepState_length (cfg : Settings) (yi : ℕ) (st : SimState)
    (hlen : st.inv_balances.length = cfg.inv_slots.length) :
    (stepState cfg yi st).inv_balances.length = cfg.inv_slots.length := by
  cases hreb : cfg.rebalancing <;>
    simp only [stepState, yearStep, hreb] <;>
    simp [addContribs, returnsPass_length, List.length_zip, List.length_zipWith, hlen]

/-- The state after every iteration carries one balance per configured slot. -/
theorem stateAfter_length (cfg : Settings) (n : ℕ) :
    (stateAfter cfg n).inv_balances.length = cfg.inv_slots.length := by
  induction n with
  | zero => simp [stateAfter, initState]
  | succ n ih => exact stepState_length cfg n _ ih

/-- When every slot contributes zero, the loop body does not depend on the
contribution-timing mode. -/
theorem yearStep_timing_irrelevant (cfg : Settings)
    (h : ∀ s ∈ cfg.inv_slots, s.annual_contrib = 0) (yi : ℕ) (st : SimState)
    (hlen : st.inv_balances.length = cfg.inv_slots.length) :
    yearStep { cfg with rebalancing := Rebalancing.start_of_year } yi st =
      yearStep { cfg with rebalancing := Rebalancing.end_of_year } yi st := by
  have h1 : addContribs cfg.inv_slots st.inv_balances = st.inv_balances :=
    addContribs_of_zero_contrib _ _ h hlen
  have hlen2 : (returnsPass cfg.compounding (cfg.inv_slots.zip st.inv_balances)).1.length
      = cfg.inv_slots.length := by
    rw [returnsPass_length, List.length_zip, hlen, min_self]
  have h2 : addContribs cfg.inv_slots
      (returnsPass cfg.compounding (cfg.inv_slots.zip st.inv_balances)).1
      = (returnsPass cfg.compounding (cfg.inv_slots.zip st.inv_balances)).1 :=
    addContribs_of_zero_contrib _ _ h hlen2
  have h3 : total_contrib cfg.inv_slots yi = 0 := total_contrib_of_zero_contrib _ yi h
  simp only [yearStep, h1, h2, h3, sub_zero]

/-- Membership in the output sequence is exactly being the row of some year
index below the horizon. -/
theorem mem_run_iff (cfg : Settings) (r : YearRow) :
    r ∈ run cfg ↔ ∃ j < numYears cfg, rowAt cfg j = r := by
  simp [run, List.mem_map, List.mem_range]

/-- When every slot contributes zero, the whole simulation does not depend
on the contribution-timing mode: states agree after every iteration. -/
theorem stateAfter_timing_irrelevant (cfg : Settings)
    (h : ∀ s ∈ cfg.inv_slots, s.annual_contrib = 0) (n : ℕ) :
    stateAfter { cfg with rebalancing := Rebalancing.start_of_year } n =
      stateAfter { cfg with rebalancing := Rebalancing.end_of_year } n := by
  induction n with
  | zero => rfl
  | succ n ih =>
    show stepState _ n _ = stepState _ n _
    rw [ih]
    show (yearStep _ n _).1 = (yearStep _ n _).1
    rw [yearStep_timing_irrelevant cfg h n _
      (stateAfter_length { cfg with rebalancing := Rebalancing.end_of_year } n)]

/- ================= Claim theorems ================= -/

/-- C1: every emitted YearResult has netWorth equal to cash plus
investmentValue exactly, and the recorded investmentValue is the sum of all
account balances at the point of emission (the state after that iteration). -/
theorem c1_net_worth_invariant (cfg : Settings) (r : YearRow) (hr : r ∈ run cfg) :
    r.net_worth = r.cash + r.investment_value ∧
    ∃ j < numYears cfg, r = rowAt cfg j ∧
      r.investment_value = ((stateAfter cfg (j + 1)).inv_balances).sum := by
  rcases (mem_run_iff cfg r).mp hr with ⟨j, hj, rfl⟩
  exact ⟨rowAt_net_worth cfg j, j, hj, rfl, rowAt_investment_value cfg j⟩

/-- Witness for C1 at the all-zero one-year configuration. -/
theorem c1_net_worth_invariant_witness :
    (rowAt cfgZero 0).net_worth = (rowAt cfgZero 0).cash + (rowAt cfgZero 0).investment_value ∧
    ∃ j < numYears cfgZero, rowAt cfgZero 0 = rowAt cfgZero j ∧
      (rowAt cfgZero 0).investment_value = ((stateAfter cfgZero (j + 1)).inv_balances).sum :=
  c1_net_worth_invariant cfgZero (rowAt cfgZero 0) (by simp [run, numYears, cfgZero])

/-- C4: the per-year gain is balance times rate under ANNUAL compounding and
balance times ((1 + rate/12)^12 - 1) under MONTHLY compounding. -/
theorem c4_apply_return_formulas (balance rate : ℚ) :
    apply_return balance rate Compounding.annual = balance * rate ∧
    apply_return balance rate Compounding.monthly =
      balance * ((1 + rate / 12) ^ 12 - 1) :=
  ⟨rfl, rfl⟩

/-- C5: every emitted YearResult satisfies
totalTaxes = salaryTax + otherIncomeTax + investmentTaxPaid exactly. -/
theorem c5_total_taxes_sum (cfg : Settings) (r : YearRow) (hr : r ∈ run cfg) :
    r.total_taxes = r.salary_tax + r.other_income_tax + r.investment_tax_paid := by
  rcases (mem_run_iff cfg r).mp hr with ⟨j, hj, rfl⟩
  exact rowAt_total_taxes cfg j

/-- Witness for C5 at the all-zero one-year configuration. -/
theorem c5_total_taxes_sum_witness :
    (rowAt cfgZero 0).total_taxes =
      (rowAt cfgZero 0).salary_tax + (rowAt cfgZero 0).other_income_tax +
        (rowAt cfgZero 0).investment_tax_paid :=
  c5_total_taxes_sum cfgZero (rowAt cfgZero 0) (by simp [run, numYears, cfgZero])

/-- C3 counterexample: at the concrete configuration with horizonYears = 0
the engine does not abort with a domain error; the loop body runs zero times
and the engine returns the empty result sequence with the state unchanged. -/
theorem c3_counterexample :
    run cfgHorizonZero = [] ∧ finalState cfgHorizonZero = initState cfgHorizonZero := by
  constructor <;> rfl

/-- C3 amended: for any input with horizonYears at most 0 the engine raises
no error and returns the empty result sequence, leaving the initial state
untouched (the code contains no validation; the year range is simply empty). -/
theorem c3_nonpositive_horizon_empty (cfg : Settings) (h : cfg.years ≤ 0) :
    run cfg = [] ∧ finalState cfg = initState cfg := by
  have hn : numYears cfg = 0 := Int.toNat_eq_zero.mpr h
  constructor
  · simp [run, hn]
  · simp [finalState, hn, stateAfter]

/-- Witness for the amended C3 at the zero-horizon configuration. -/
theorem c3_nonpositive_horizon_empty_witness :
    run cfgHorizonZero = [] ∧ finalState cfgHorizonZero = initState cfgHorizonZero :=
  c3_nonpositive_horizon_empty cfgHorizonZero (by norm_num [cfgHorizonZero, cfgZero])

/-- C2 counterexample: with a non-zero but negative return rate (-1/2), a
non-zero contribution (100) and reinvested returns, START_OF_YEAR yields a
strictly smaller year-0 balance (550) than END_OF_YEAR (600), so the claimed
inequality fails for merely non-zero rates. -/
theorem c2_counterexample :
    ¬ ((stateAfter { cfgC2x with rebalancing := Rebalancing.end_of_year } 1).inv_balances.getD 0 0 ≤
       (stateAfter { cfgC2x with rebalancing := Rebalancing.start_of_year } 1).inv_balances.getD 0 0) := by
  norm_num [stateAfter, stepState, yearStep, initState, cfgC2x, cfgZero, slotC2x,
    total_contrib, addContribs, returnsPass, apply_return]

/-- C2 amended: for two runs differing only in contributionTiming, with a
single account whose contribution is non-negative, whose return rate is
positive (not merely non-zero), and whose tax on returns is at most 1, the
START_OF_YEAR balance after year 0 is at least the END_OF_YEAR balance,
under either compounding mode and either reinvestment setting. -/
theorem c2_start_timing_ge_end_timing (cfg : Settings) (s : InvSlot)
    (hs : cfg.inv_slots = [s]) (hc : 0 ≤ s.annual_contrib)
    (hr : 0 < s.ret) (ht : s.tax ≤ 1) :
    (stateAfter { cfg with rebalancing := Rebalancing.end_of_year } 1).inv_balances.getD 0 0 ≤
    (stateAfter { cfg with rebalancing := Rebalancing.start_of_year } 1).inv_balances.getD 0 0 := by
  have hF : 0 < rateFactor cfg.compounding s.ret := rateFactor_pos _ hr
  have hstep : (0:ℚ) ≤ s.annual_contrib * (rateFactor cfg.compounding s.ret * (1 - s.tax)) :=
    mul_nonneg hc (mul_nonneg hF.le (by linarith))
  cases hrv : s.reinvest <;>
    simp only [stateAfter, stepState, yearStep, initState, hs, List.map_cons, List.map_nil,
      addContribs, List.zipWith_cons_cons, List.zipWith_nil_right, List.zip_cons_cons,
      List.zip_nil_right, returnsPass, apply_return_eq_mul, hrv, if_true, if_false,
      Bool.false_eq_true, List.getD_cons_zero] <;>
    nlinarith [hstep]

/-- Witness for the amended C2 at a concrete single-slot configuration with
return rate 1/10, contribution 100 and no tax on returns. -/
theorem c2_start_timing_ge_end_timing_witness :
    (stateAfter { cfgC2w with rebalancing := Rebalancing.end_of_year } 1).inv_balances.getD 0 0 ≤
    (stateAfter { cfgC2w with rebalancing := Rebalancing.start_of_year } 1).inv_balances.getD 0 0 :=
  c2_start_timing_ge_end_timing cfgC2w slotC2w rfl (by norm_num [slotC2w])
    (by norm_num [slotC2w]) (by norm_num [slotC2w])

/-- C6 counterexample: with both salary growth rates positive (1/20), both
other incomes zero, and both salaries zero (a valid input), gross income is
0 in year 0 and year 1, so it does not strictly increase. -/
theorem c6_counterexample :
    ¬ ((rowAt cfgC6x 0).gross_income < (rowAt cfgC6x 1).gross_income) := by
  norm_num [rowAt_gross_income, cfgC6x, cfgZero]

/-- C6 amended: when both salary growth rates are positive, both other
incomes are zero, both salaries are non-negative and at least one salary is
positive, gross income strictly increases from each projected year to the
next. -/
theorem c6_gross_income_strictly_increasing (cfg : Settings)
    (hg1 : 0 < cfg.p1_growth) (hg2 : 0 < cfg.p2_growth)
    (ho1 : cfg.p1_other = 0) (ho2 : cfg.p2_other = 0)
    (hs1 : 0 ≤ cfg.p1_salary) (hs2 : 0 ≤ cfg.p2_salary)
    (hpos : 0 < cfg.p1_salary ∨ 0 < cfg.p2_salary)
    (n : ℕ) (_hn : n + 1 < numYears cfg) :
    (rowAt cfg n).gross_income < (rowAt cfg (n + 1)).gross_income := by
  rw [rowAt_gross_income, rowAt_gross_income, ho1, ho2]
  have h1 : (0:ℚ) < (1 + cfg.p1_growth) ^ n := pow_pos (by linarith) n
  have h2 : (0:ℚ) < (1 + cfg.p2_growth) ^ n := pow_pos (by linarith) n
  rw [pow_succ, pow_succ]
  rcases hpos with hp | hp
  · nlinarith [mul_pos (mul_pos hp h1) hg1, mul_nonneg (mul_nonneg hs2 h2.le) hg2.le]
  · nlinarith [mul_pos (mul_pos hp h2) hg2, mul_nonneg (mul_nonneg hs1 h1.le) hg1.le]

/-- Witness for the amended C6 at a two-year configuration with first salary
100 and both growth rates 1/10. -/
theorem c6_gross_income_strictly_increasing_witness :
    (rowAt cfgC6w 0).gross_income < (rowAt cfgC6w (0 + 1)).gross_income :=
  c6_gross_income_strictly_increasing cfgC6w
    (by norm_num [cfgC6w, cfgZero]) (by norm_num [cfgC6w, cfgZero])
    (by norm_num [cfgC6w, cfgZero]) (by norm_num [cfgC6w, cfgZero])
    (by norm_num [cfgC6w, cfgZero]) (by norm_num [cfgC6w, cfgZero])
    (Or.inl (by norm_num [cfgC6w, cfgZero])) 0
    (by norm_num [numYears, cfgC6w, cfgZero])

/-- C7: when every slot has a zero return rate and a zero contribution, the
account balances after every projected year are exactly the initial
principals, for every timing mode and compounding mode (both are arbitrary
fields of the settings here). -/
theorem c7_zero_rate_balances_constant (cfg : Settings)
    (h : ∀ s ∈ cfg.inv_slots, s.ret = 0 ∧ s.annual_contrib = 0) (n : ℕ) :
    (stateAfter cfg n).inv_balances = cfg.inv_slots.map fun s => s.principal := by
  induction n with
  | zero => rfl
  | succ n ih =>
    have hlen : (stateAfter cfg n).inv_balances.length = cfg.inv_slots.length := by
      rw [ih]; simp
    calc (stateAfter cfg (n + 1)).inv_balances
        = (stateAfter cfg n).inv_balances :=
          stepState_balances_of_zero cfg n _ h hlen
      _ = _ := ih

/-- Witness for C7: a two-year monthly-compounded end-of-year configuration
with one zero-rate zero-contribution slot keeps its principal of 500. -/
theorem c7_zero_rate_balances_constant_witness :
    (stateAfter cfgC7w 2).inv_balances = cfgC7w.inv_slots.map (fun s => s.principal) :=
  c7_zero_rate_balances_constant cfgC7w (by simp [cfgC7w, cfgZero]) 2

/-- C9 counterexample: with zero incomes and expenses, every account
reinvesting, but a non-zero contribution (100), year-0 cash drops by the
contribution as well, so it does not drop by exactly the investment tax paid
(which is 0 here). -/
theorem c9_counterexample :
    ¬ ((stateAfter cfgC9x 1).cash =
        (stateAfter cfgC9x 0).cash - (rowAt cfgC9x 0).investment_tax_paid) := by
  norm_num [stateAfter, stepState, rowAt, yearStep, initState, cfgC9x, cfgZero,
    total_contrib, addContribs, returnsPass, apply_return]

/-- C9 amended: when all incomes are zero, all expenses are zero, and every
slot reinvests and contributes nothing, the cash balance decreases each year
by exactly the investmentTaxPaid of that year: the tax on reinvested gains is
removed from the account balance (which only gains the net amount) and is
charged to cash again through totalTaxes and netSavings. -/
theorem c9_reinvested_tax_reduces_cash (cfg : Settings)
    (hs1 : cfg.p1_salary = 0) (ho1 : cfg.p1_other = 0)
    (hs2 : cfg.p2_salary = 0) (ho2 : cfg.p2_other = 0)
    (hm : cfg.monthly_expenses = 0) (ha : cfg.annual_irregular = 0)
    (hinv : ∀ s ∈ cfg.inv_slots, s.reinvest = true ∧ s.annual_contrib = 0)
    (n : ℕ) :
    (stateAfter cfg (n + 1)).cash =
      (stateAfter cfg n).cash - (rowAt cfg n).investment_tax_paid := by
  have hc : ∀ s ∈ cfg.inv_slots, s.annual_contrib = 0 := fun s hs => (hinv s hs).2
  show (stepState cfg n (stateAfter cfg n)).cash = _
  cases hreb : cfg.rebalancing <;>
    simp only [stepState, rowAt, yearStep, hreb, hs1, ho1, hs2, ho2, hm, ha,
      total_contrib_of_zero_contrib cfg.inv_slots n hc,
      returnsPass_sweep_of_reinvest cfg.compounding _
        (fun p hp => (hinv p.1 (List.of_mem_zip hp).1).1)] <;>
    ring

/-- Witness for the amended C9: with principal 1000, rate 1/10 and tax rate
1/5 on returns, reinvested, cash falls by the 20 of tax paid. -/
theorem c9_reinvested_tax_reduces_cash_witness :
    (stateAfter cfgC9w 1).cash =
      (stateAfter cfgC9w 0).cash - (rowAt cfgC9w 0).investment_tax_paid :=
  c9_reinvested_tax_reduces_cash cfgC9w rfl rfl rfl rfl rfl rfl
    (by simp [cfgC9w, cfgZero]) 0

/-- C8: in the concrete one-year scenario (principal 1000, no contribution,
return rate 1/10, no tax on returns, reinvest off, ANNUAL compounding, all
incomes, expenses, tax rates and starting cash zero) the account balance
stays at 1000, cash rises from 0 by exactly 100, and the emitted net worth
is 1100. -/
theorem c8_end_to_end_no_reinvest :
    (finalState cfgC8).inv_balances = [1000] ∧
    cfgC8.start_savings = 0 ∧ (rowAt cfgC8 0).cash = 100 ∧
    (rowAt cfgC8 0).net_worth = 1100 := by
  refine ⟨?_, rfl, ?_, ?_⟩ <;>
    norm_num [finalState, numYears, stateAfter, stepState, rowAt, yearStep, initState,
      cfgC8, cfgZero, total_contrib, addContribs, returnsPass, apply_return]

/-- C10: when every slot contributes zero, the two contribution-timing
modes produce identical result sequences and identical final state (cash
and account balances). -/
theorem c10_timing_equivalence_no_contrib (cfg : Settings)
    (h : ∀ s ∈ cfg.inv_slots, s.annual_contrib = 0) :
    run { cfg with rebalancing := Rebalancing.start_of_year } =
      run { cfg with rebalancing := Rebalancing.end_of_year } ∧
    finalState { cfg with rebalancing := Rebalancing.start_of_year } =
      finalState { cfg with rebalancing := Rebalancing.end_of_year } := by
  have hrow : ∀ n : ℕ,
      rowAt { cfg with rebalancing := Rebalancing.start_of_year } n =
        rowAt { cfg with rebalancing := Rebalancing.end_of_year } n := by
    intro n
    show (yearStep _ n _).2 = (yearStep _ n _).2
    rw [stateAfter_timing_irrelevant cfg h n]
    rw [yearStep_timing_irrelevant cfg h n _
      (stateAfter_length { cfg with rebalancing := Rebalancing.end_of_year } n)]
  constructor
  · exact List.map_congr_left fun n _ => hrow n
  · exact stateAfter_timing_irrelevant cfg h (numYears cfg)

/-- Witness for C10 at a two-year configuration with one zero-contribution
slot swept to cash at a ten percent return. -/
theorem c10_timing_equivalence_no_contrib_witness :
    run { cfgC10w with rebalancing := Rebalancing.start_of_year } =
      run { cfgC10w with rebalancing := Rebalancing.end_of_year } ∧
    finalState { cfgC10w with rebalancing := Rebalancing.start_of_year } =
      finalState { cfgC10w with rebalancing := Rebalancing.end_of_year } :=
  c10_timing_equivalence_no_contrib cfgC10w (by simp [cfgC10w, cfgZero])

end Cashflow
